import Mathlib

/-!
Verification of the interrupt-controller abstraction of this repository:
the basic platform-level interrupt controller (`src/plic.rs`) and the
advanced controller (`src/peripheral/aplic.rs`).

Machine integers (`u32`) are modelled as `Nat` with explicit `% 2^32`
where wrap-around matters; Rust panics (failed asserts, array
out-of-bounds, explicit `panic`) are modelled as `Option.none`.
-/

set_option maxRecDepth 10000

/-- u32 bitwise NOT: `!x` on a `u32` is xor against the all-ones word. -/
def not32 (x : Nat) : Nat := 4294967295 ^^^ x

/-- `Priority<B>` from `src/plic.rs`: a priority value with `B` supported
bits, stored in a `u32`. -/
structure Priority (B : Nat) where
  bits : Nat

namespace Priority

/-- `Priority::never()`: priority 0 means never interrupt. -/
def never (B : Nat) : Priority B := ⟨0⟩

/-- `Priority::lowest()`: the lowest active priority, 1. -/
def lowest (B : Nat) : Priority B := ⟨1⟩

/-- `Priority::highest()`: `u32::MAX` when `B == 32`, otherwise
`(2 << B) - 1` computed with u32 wrapping semantics (the shift is
truncated to 32 bits; the subtraction of 1 wraps, i.e. adds
`2^32 - 1` modulo `2^32`). -/
def highest (B : Nat) : Priority B :=
  if B = 32 then ⟨4294967295⟩
  else ⟨((2 <<< B) % 4294967296 + 4294967295) % 4294967296⟩

/-- `Priority::into_bits()`: the raw `u32` value. -/
def into_bits {B : Nat} (p : Priority B) : Nat := p.bits

/-- `Priority::from_bits(prio)`: always legal for `B == 32`; otherwise
legal exactly when `prio < (1 << B)`, and a panic (`none`) otherwise. -/
def from_bits (B : Nat) (prio : Nat) : Option (Priority B) :=
  if B = 32 then some ⟨prio⟩
  else if prio < 1 <<< B then some ⟨prio⟩ else none

end Priority

/-- The state of the basic controller's register block (`RegisterBlock`
in `src/plic.rs`): per-source priority words, the pending bitmap words,
per-context enable bitmap words, and per-context threshold words.
Each function gives the `u32` held at the given word index. -/
structure PlicState where
  priority : Nat → Nat
  pending : Nat → Nat
  enables : Nat → Nat → Nat
  threshold : Nat → Nat

namespace Plic

/-- `Plic::is_enabled(context, irq)`: panics (`none`) when `irq == 0` or
when the array access `enables[context][irq / 32]` is out of bounds
(`enables` has 15872 rows of 32 words each); otherwise tests
`enables & (irq % 32) != 0` — note the source ANDs with the *value*
`irq % 32`, not with `1 << (irq % 32)`. -/
def is_enabled (s : PlicState) (context irq : Nat) : Option Bool :=
  if irq = 0 then none
  else if context < 15872 ∧ irq / 32 < 32 then
    some (decide (s.enables context (irq / 32) &&& (irq % 32) ≠ 0))
  else none

/-- `Plic::unmask(context, irq)`: read-modify-write of
`enables[context][irq / 32]`, OR-ing in `1 << (irq % 32)`; panics
(`none`) only when the array access is out of bounds. -/
def unmask (s : PlicState) (context irq : Nat) : Option PlicState :=
  if context < 15872 ∧ irq / 32 < 32 then
    some { s with enables := fun c i =>
      if c = context ∧ i = irq / 32 then s.enables c i ||| 1 <<< (irq % 32)
      else s.enables c i }
  else none

/-- `Plic::mask(context, irq)`: read-modify-write of
`enables[context][irq / 32]`, AND-ing with `!(1 << (irq % 32))`; panics
(`none`) only when the array access is out of bounds. -/
def mask (s : PlicState) (context irq : Nat) : Option PlicState :=
  if context < 15872 ∧ irq / 32 < 32 then
    some { s with enables := fun c i =>
      if c = context ∧ i = irq / 32 then s.enables c i &&& not32 (1 <<< (irq % 32))
      else s.enables c i }
  else none

/-- `Plic::is_pending(irq)`: tests bit `irq % 32` of pending word
`irq / 32` (the pending array has 32 words). -/
def is_pending (s : PlicState) (irq : Nat) : Option Bool :=
  if irq / 32 < 32 then
    some (decide (s.pending (irq / 32) &&& 1 <<< (irq % 32) ≠ 0))
  else none

/-- Modelled from the spec: the hardware arbitration behind the claim
register is not part of this repository (the register surface is an
external collaborator), so the qualification test is taken from the
spec's words — a source qualifies for a context when it is a valid id
(1..1023), pending, enabled for that context, and its priority is at or
above the context's threshold.  Pending and enable bits live at bit
`irq % 32` of word `irq / 32` of the respective bitmaps, as documented
in the register-block layout. -/
def qualifiesb (s : PlicState) (c irq : Nat) : Bool :=
  decide (1 ≤ irq) && decide (irq ≤ 1023) && (s.pending (irq / 32)).testBit (irq % 32) &&
    (s.enables c (irq / 32)).testBit (irq % 32) && decide (s.threshold c ≤ s.priority irq)

/-- Modelled from the spec: one step of the hardware arbitration scan —
a qualifying source replaces the current best candidate when there is
none yet (0) or when it has strictly higher priority; scanning ids in
increasing order therefore breaks priority ties toward the lowest id. -/
def claimStep (s : PlicState) (c best irq : Nat) : Nat :=
  if qualifiesb s c irq && (decide (best = 0) || decide (s.priority best < s.priority irq))
  then irq else best

/-- Modelled from the spec: the arbitration scan over source ids
`i, i+1, ..., i+n-1`, carrying the best candidate so far (0 = none). -/
def claimScan (s : PlicState) (c : Nat) : Nat → Nat → Nat → Nat
  | _, 0, best => best
  | i, n + 1, best => claimScan s c (i + 1) n (claimStep s c best i)

/-- Modelled from the spec: the value the hardware exposes in the
context's claim register — the winner of the arbitration scan over all
valid source ids 1..1023, or 0 when nothing qualifies. -/
def claimReg (s : PlicState) (c : Nat) : Nat := claimScan s c 1 1023 0

/-- `Plic::claim(context)`: reads the context's claim register and
returns it truncated to `u16` (`bits as u16`); the read panics (`none`)
when the context index is out of bounds (the contexts array has 15872
entries).  The function's return type is a bare id, not an `Option`:
the no-interrupt case is the value 0. -/
def claim (s : PlicState) (c : Nat) : Option Nat :=
  if c < 15872 then some (claimReg s c % 65536) else none

end Plic

/-- The all-zero basic-controller state: nothing pending, nothing
enabled, every priority and threshold 0. -/
def plicEmpty : PlicState := ⟨fun _ => 0, fun _ => 0, fun _ _ => 0, fun _ => 0⟩

/-- Invariant of the arbitration scan after the sources below `i` have
been examined: either no source below `i` qualifies and the candidate
is still 0, or the candidate is a qualifying source below `i` of
maximal priority among them, with ties broken toward the lowest id. -/
def ClaimInv (s : PlicState) (c i best : Nat) : Prop :=
  (best = 0 ∧ ∀ j, j < i → Plic.qualifiesb s c j = false) ∨
  (Plic.qualifiesb s c best = true ∧ best < i ∧
    ∀ j, j < i → Plic.qualifiesb s c j = true →
      s.priority j ≤ s.priority best ∧ (s.priority j = s.priority best → best ≤ j))

/-- `SourceModes` from `src/peripheral/aplic.rs`. -/
inductive SourceModes where
  | Inactive
  | Detached
  | EdgeRising
  | EdgeFalling
  | LevelHigh
  | LevelLow

/-- The `u32` discriminant of each `SourceModes` variant. -/
def SourceModes.toBits : SourceModes → Nat
  | .Inactive => 0
  | .Detached => 1
  | .EdgeRising => 4
  | .EdgeFalling => 5
  | .LevelHigh => 6
  | .LevelLow => 7

/-- The state of the advanced controller's register block (`Aplic` in
`src/peripheral/aplic.rs`).  Indexed fields (`sourcecfg`, `target`) are
functions from the array position (`0..1022`, holding register index
position + 1) to the `u32` word; bitmap arrays are functions from the
word index. -/
structure AplicState where
  domaincfg : Nat
  sourcecfg : Nat → Nat
  mmsiaddrcfg : Nat
  mmsiaddrcfgh : Nat
  smsiaddrcfg : Nat
  smsiaddrcfgh : Nat
  setip : Nat → Nat
  setipnum : Nat
  in_clrip : Nat → Nat
  clripnum : Nat
  setie : Nat → Nat
  setienum : Nat
  clrie : Nat → Nat
  clrienum : Nat
  setipnum_le : Nat
  setipnum_be : Nat
  genmsi : Nat
  target : Nat → Nat

namespace Aplic

/-- `Aplic::sourcecfg_delegate(int, child)`: asserts `0 < int < 1024`
and `child < 1024` (`none` on failure), then writes
`1 << 10 | child` — the delegation bit plus the child index — to
`sourcecfg[int - 1]`. -/
def sourcecfg_delegate (s : AplicState) (int child : Nat) : Option AplicState :=
  if 0 < int ∧ int < 1024 then
    if child < 1024 then
      some { s with sourcecfg := fun i =>
        if i = int - 1 then 1 <<< 10 ||| child else s.sourcecfg i }
    else none
  else none

/-- `Aplic::set_sourcecfg(int, mode)`: asserts `0 < int < 1024`
(`none` on failure), then writes the mode's discriminant as a whole
word to `sourcecfg[int - 1]`. -/
def set_sourcecfg (s : AplicState) (int : Nat) (mode : SourceModes) : Option AplicState :=
  if 0 < int ∧ int < 1024 then
    some { s with sourcecfg := fun i =>
      if i = int - 1 then mode.toBits else s.sourcecfg i }
  else none

/-- `Aplic::set_target_msi(int, hart, guest, eiid)`: asserts, in order,
`0 < int < 1024`, `hart < 16384`, `guest < 32`, `eiid < 1024` (`none`
on the first failure), then writes `hart << 18 | guest << 12 | eiid`
to `target[int - 1]`. -/
def set_target_msi (s : AplicState) (int hart guest eiid : Nat) : Option AplicState :=
  if 0 < int ∧ int < 1024 then
    if hart < 16384 then
      if guest < 32 then
        if eiid < 1024 then
          some { s with target := fun i =>
            if i = int - 1 then hart <<< 18 ||| guest <<< 12 ||| eiid else s.target i }
        else none
      else none
    else none
  else none

/-- `Aplic::mask(int)`: asserts `0 < int < 1024`, then performs a
single write of `int` to the `clrienum` register. -/
def mask (s : AplicState) (int : Nat) : Option AplicState :=
  if 0 < int ∧ int < 1024 then some { s with clrienum := int } else none

/-- `Aplic::unmask(int)`: asserts `0 < int < 1024`, then performs a
single write of `int` to the `setienum` register. -/
def unmask (s : AplicState) (int : Nat) : Option AplicState :=
  if 0 < int ∧ int < 1024 then some { s with setienum := int } else none

end Aplic

/-- The all-zero advanced-controller state. -/
def aplic0 : AplicState :=
  ⟨0, fun _ => 0, 0, 0, 0, 0, fun _ => 0, 0, fun _ => 0, 0, fun _ => 0, 0,
    fun _ => 0, 0, 0, 0, 0, fun _ => 0⟩

namespace PlicLayout

/-- `RegisterBlock.priority`: first field of the `repr(C)` block. -/
def priority_offset : Nat := 0

/-- `priority` is `[RW<u32>; 1024]`. -/
def priority_size : Nat := 1024 * 4

/-- `RegisterBlock.pending` follows `priority`. -/
def pending_offset : Nat := priority_offset + priority_size

/-- `pending` is `[RW<u32>; 32]`. -/
def pending_size : Nat := 32 * 4

/-- `_padding1` is `[u32; 992]`. -/
def padding1_size : Nat := 992 * 4

/-- `RegisterBlock.enables` follows `pending` and `_padding1`. -/
def enables_offset : Nat := pending_offset + pending_size + padding1_size

/-- One `Enables` row is `[RW<u32>; 32]`: the per-context stride. -/
def enables_stride : Nat := 32 * 4

/-- `enables` is `[Enables; 15872]`. -/
def enables_size : Nat := 15872 * enables_stride

/-- `_padding2` is `[u32; 14336]`. -/
def padding2_size : Nat := 14336 * 4

/-- `RegisterBlock.contexts` follows `enables` and `_padding2`. -/
def contexts_offset : Nat := enables_offset + enables_size + padding2_size

/-- One `Contexts` entry is `{threshold, claim, [u32; 1022]}`: the
per-context stride. -/
def context_stride : Nat := (1 + 1 + 1022) * 4

/-- `contexts` is `[Contexts; 15872]`. -/
def contexts_size : Nat := 15872 * context_stride

/-- Total size of the basic controller's register block. -/
def total_size : Nat := contexts_offset + contexts_size

end PlicLayout

namespace AplicLayout

/-- `Aplic.domaincfg`: first field of the `repr(C)` block. -/
def domaincfg_offset : Nat := 0

/-- `sourcecfg` (`[RW<u32>; 1023]`) follows `domaincfg`. -/
def sourcecfg_offset : Nat := domaincfg_offset + 4

/-- `mmsiaddrcfg` follows `sourcecfg` and `_padding0 : [u32; 752]`. -/
def mmsiaddrcfg_offset : Nat := sourcecfg_offset + 1023 * 4 + 752 * 4

/-- `mmsiaddrcfgh` follows `mmsiaddrcfg`. -/
def mmsiaddrcfgh_offset : Nat := mmsiaddrcfg_offset + 4

/-- `smsiaddrcfg` follows `mmsiaddrcfgh`. -/
def smsiaddrcfg_offset : Nat := mmsiaddrcfgh_offset + 4

/-- `smsiaddrcfgh` follows `smsiaddrcfg`. -/
def smsiaddrcfgh_offset : Nat := smsiaddrcfg_offset + 4

/-- `setip` (`[RW<u32>; 32]`) follows `smsiaddrcfgh` and
`_padding1 : [u32; 12]`. -/
def setip_offset : Nat := smsiaddrcfgh_offset + 4 + 12 * 4

/-- `setipnum` follows `setip` and `_padding2 : [u32; 23]`. -/
def setipnum_offset : Nat := setip_offset + 32 * 4 + 23 * 4

/-- `in_clrip` (`[RW<u32>; 32]`) follows `setipnum` and
`_padding3 : [u32; 8]`. -/
def in_clrip_offset : Nat := setipnum_offset + 4 + 8 * 4

/-- `clripnum` follows `in_clrip` and `_padding4 : [u32; 23]`. -/
def clripnum_offset : Nat := in_clrip_offset + 32 * 4 + 23 * 4

/-- `setie` (`[RW<u32>; 32]`) follows `clripnum` and
`_padding5 : [u32; 8]`. -/
def setie_offset : Nat := clripnum_offset + 4 + 8 * 4

/-- `setienum` follows `setie` and `_padding6 : [u32; 23]`. -/
def setienum_offset : Nat := setie_offset + 32 * 4 + 23 * 4

/-- `clrie` (`[RW<u32>; 32]`) follows `setienum` and
`_padding7 : [u32; 8]`. -/
def clrie_offset : Nat := setienum_offset + 4 + 8 * 4

/-- `clrienum` follows `clrie` and `_padding8 : [u32; 23]`. -/
def clrienum_offset : Nat := clrie_offset + 32 * 4 + 23 * 4

/-- `setipnum_le` follows `clrienum` and `_padding9 : [u32; 8]`. -/
def setipnum_le_offset : Nat := clrienum_offset + 4 + 8 * 4

/-- `setipnum_be` follows `setipnum_le`. -/
def setipnum_be_offset : Nat := setipnum_le_offset + 4

/-- `genmsi` follows `setipnum_be` and `_padding10 : [u32; 1022]`. -/
def genmsi_offset : Nat := setipnum_be_offset + 4 + 1022 * 4

/-- `target` (`[RW<u32>; 1023]`) follows `genmsi`. -/
def target_offset : Nat := genmsi_offset + 4

/-- Total size of the advanced controller's register block. -/
def total_size : Nat := target_offset + 1023 * 4

end AplicLayout

/-- **C1.** The source's own doc comment says `highest()` for `B = 3`
should be `7 or 2^3 - 1`, but the implementation computes
`(2 << B) - 1 = 15`: the code disagrees with its documentation and with
the claimed `2^W - 1`. -/
theorem highest_width3_value :
    (Priority.highest 3).bits = 15 ∧ (Priority.highest 3).bits ≠ 2 ^ 3 - 1 := by
  decide

/-- **C8.** For every width `1 ≤ W ≤ 32` the priority constants are
strictly ordered by their bit values: `never() < lowest() < highest()`. -/
theorem priority_constants_ordered (B : Nat) (h1 : 1 ≤ B) (h2 : B ≤ 32) :
    (Priority.never B).bits < (Priority.lowest B).bits ∧
    (Priority.lowest B).bits < (Priority.highest B).bits := by
  interval_cases B <;> decide

/-- Witness for `priority_constants_ordered` at `B = 3`. -/
theorem priority_constants_ordered_witness :
    (1 ≤ 3 ∧ 3 ≤ 32) ∧
    ((Priority.never 3).bits < (Priority.lowest 3).bits ∧
      (Priority.lowest 3).bits < (Priority.highest 3).bits) :=
  ⟨by decide, priority_constants_ordered 3 (by decide) (by decide)⟩

/-- **C4.** For `W ≤ 32` and `v` a `u32` value: if `v < 2^W` then
`from_bits(v).into_bits() = v`; if `v ≥ 2^W` and `W < 32` then
`from_bits` fails (no silent truncation); and for `W = 32` `from_bits`
always succeeds. -/
theorem from_bits_into_bits_spec (B v : Nat) (hB : B ≤ 32) (hv : v < 4294967296) :
    (v < 2 ^ B → (Priority.from_bits B v).map Priority.into_bits = some v) ∧
    (2 ^ B ≤ v → B < 32 → Priority.from_bits B v = none) ∧
    (B = 32 → (Priority.from_bits B v).isSome = true) := by
  by_cases h32 : B = 32
  · subst h32
    refine ⟨fun _ => by simp [Priority.from_bits, Priority.into_bits], ?_, ?_⟩
    · intro _ hlt
      exact absurd hlt (by omega)
    · intro _
      simp [Priority.from_bits]
  · have hsh : 1 <<< B = 2 ^ B := Nat.one_shiftLeft B
    refine ⟨?_, ?_, ?_⟩
    · intro hlt
      simp [Priority.from_bits, h32, hsh, hlt, Priority.into_bits]
    · intro hge _
      simp [Priority.from_bits, h32, hsh]
      omega
    · intro h
      exact absurd h h32

/-- Witness for `from_bits_into_bits_spec` at `B = 3`, `v = 5`. -/
theorem from_bits_into_bits_spec_witness :
    ((3 : Nat) ≤ 32 ∧ (5 : Nat) < 4294967296) ∧
    (((5 : Nat) < 2 ^ 3 → (Priority.from_bits 3 5).map Priority.into_bits = some 5) ∧
      (2 ^ 3 ≤ 5 → 3 < 32 → Priority.from_bits 3 5 = none) ∧
      ((3 : Nat) = 32 → (Priority.from_bits 3 5).isSome = true)) :=
  ⟨by decide, from_bits_into_bits_spec 3 5 (by decide) (by decide)⟩

/-- AND distributes over OR on `Nat`, bitwise. -/
theorem lor_land_distrib (a b c : Nat) : (a ||| b) &&& c = a &&& c ||| b &&& c := by
  apply Nat.eq_of_testBit_eq
  intro i
  simp only [Nat.testBit_land, Nat.testBit_lor]
  cases ha : a.testBit i <;> cases hb : b.testBit i <;> cases hc : c.testBit i <;> rfl

/-- For a bit position `v < 32`, the complement mask `!(1 << v)` keeps
every bit of the value `v` itself (bit `v` of the number `v` is never
set, since `v < 2^v` for bit positions that fit in the value). -/
theorem not32_shift_land_value (v : Nat) (hv : v < 32) : not32 (1 <<< v) &&& v = v := by
  revert hv
  revert v
  decide

/-- For a bit position `v < 32`, the single-bit mask `1 << v` shares no
set bit with the value `v` itself. -/
theorem shift_land_value (v : Nat) (hv : v < 32) : 1 <<< v &&& v = 0 := by
  revert hv
  revert v
  decide

/-- Setting bit `v` and then clearing it leaves `w & v` (the AND used by
the source's `is_enabled`) unchanged, for any bit position `v < 32`. -/
theorem set_clear_bit_land_value (w v : Nat) (hv : v < 32) :
    ((w ||| 1 <<< v) &&& not32 (1 <<< v)) &&& v = w &&& v := by
  rw [Nat.land_assoc, not32_shift_land_value v hv, lor_land_distrib,
    shift_land_value v hv, Nat.or_zero]

/-- **C3.** When `unmask(c, irq)` followed by `mask(c, irq)` runs
without panicking (the context and source indices are in bounds),
`is_enabled(c, irq)` afterwards equals its value beforehand. -/
theorem unmask_mask_preserves_is_enabled (s : PlicState) (c irq : Nat)
    (hg : c < 15872 ∧ irq / 32 < 32) :
    ((Plic.unmask s c irq).bind (fun t => Plic.mask t c irq)).map
        (fun t => Plic.is_enabled t c irq) =
      some (Plic.is_enabled s c irq) := by
  obtain ⟨hc, hi⟩ := hg
  simp only [Plic.unmask, Plic.mask, if_pos (And.intro hc hi), Option.some_bind]
  by_cases h0 : irq = 0
  · simp [Plic.is_enabled, h0]
  · have hv : irq % 32 < 32 := Nat.mod_lt irq (by omega)
    simp only [Plic.is_enabled, h0, if_false, ite_false, if_pos (And.intro hc hi),
      Option.map_some', eq_self_iff_true, and_self, ite_true, Option.some.injEq,
      decide_eq_decide]
    rw [set_clear_bit_land_value _ _ hv]

/-- Witness for `unmask_mask_preserves_is_enabled` at the all-zero
state, context 0, source 1. -/
theorem unmask_mask_preserves_is_enabled_witness :
    ((0 : Nat) < 15872 ∧ (1 : Nat) / 32 < 32) ∧
    ((Plic.unmask plicEmpty 0 1).bind (fun t => Plic.mask t 0 1)).map
        (fun t => Plic.is_enabled t 0 1) =
      some (Plic.is_enabled plicEmpty 0 1) :=
  ⟨by decide, unmask_mask_preserves_is_enabled plicEmpty 0 1 (by decide)⟩

/-- **C10.** The basic controller's `mask`/`unmask` do not validate the
source id: at `irq = 0` (a reserved id) both succeed, setting or
clearing bit 0 of the context's first enable word, while
`is_enabled(c, 0)` panics (`none`) rather than returning `false`. -/
theorem mask_unmask_no_id_validation (s : PlicState) (c : Nat) (hc : c < 15872) :
    Plic.is_enabled s c 0 = none ∧
    (Plic.unmask s c 0).map (fun t => t.enables c 0) = some (s.enables c 0 ||| 1) ∧
    (Plic.mask s c 0).map (fun t => t.enables c 0) = some (s.enables c 0 &&& not32 1) := by
  refine ⟨by simp [Plic.is_enabled], ?_, ?_⟩ <;>
    simp [Plic.unmask, Plic.mask, hc]

/-- Witness for `mask_unmask_no_id_validation` at the all-zero state,
context 0. -/
theorem mask_unmask_no_id_validation_witness :
    (0 : Nat) < 15872 ∧
    (Plic.is_enabled plicEmpty 0 0 = none ∧
      (Plic.unmask plicEmpty 0 0).map (fun t => t.enables 0 0) =
        some (plicEmpty.enables 0 0 ||| 1) ∧
      (Plic.mask plicEmpty 0 0).map (fun t => t.enables 0 0) =
        some (plicEmpty.enables 0 0 &&& not32 1)) :=
  ⟨by decide, mask_unmask_no_id_validation plicEmpty 0 (by decide)⟩

/-- A qualifying source id lies in `1..1023`. -/
theorem qualifiesb_bounds (s : PlicState) (c j : Nat)
    (h : Plic.qualifiesb s c j = true) : 1 ≤ j ∧ j ≤ 1023 := by
  simp only [Plic.qualifiesb, Bool.and_eq_true, decide_eq_true_eq] at h
  exact ⟨h.1.1.1.1, h.1.1.1.2⟩

/-- One arbitration step preserves the scan invariant. -/
theorem claimStep_inv (s : PlicState) (c i best : Nat) (h : ClaimInv s c i best) :
    ClaimInv s c (i + 1) (Plic.claimStep s c best i) := by
  rcases Bool.eq_false_or_eq_true (Plic.qualifiesb s c i) with hq | hq
  · rcases h with ⟨hb0, hnone⟩ | ⟨hqb, hlt, hmax⟩
    · subst hb0
      have hstep : Plic.claimStep s c 0 i = i := by
        simp [Plic.claimStep, hq]
      rw [hstep]
      right
      refine ⟨hq, Nat.lt_succ_self i, fun j hj hqj => ?_⟩
      rcases Nat.lt_succ_iff_lt_or_eq.mp hj with hj2 | rfl
      · rw [hnone j hj2] at hqj
        exact absurd hqj (by simp)
      · exact ⟨Nat.le_refl _, fun _ => Nat.le_refl _⟩
    · have hb0 : best ≠ 0 := by
        have := qualifiesb_bounds s c best hqb
        omega
      rcases Nat.lt_or_ge (s.priority best) (s.priority i) with hp | hp
      · have hstep : Plic.claimStep s c best i = i := by
          simp [Plic.claimStep, hq, hp]
        rw [hstep]
        right
        refine ⟨hq, Nat.lt_succ_self i, fun j hj hqj => ?_⟩
        rcases Nat.lt_succ_iff_lt_or_eq.mp hj with hj2 | rfl
        · have := hmax j hj2 hqj
          exact ⟨by omega, fun h2 => by omega⟩
        · exact ⟨Nat.le_refl _, fun _ => Nat.le_refl _⟩
      · have hnp : ¬ s.priority best < s.priority i := by omega
        have hstep : Plic.claimStep s c best i = best := by
          simp [Plic.claimStep, hq, hb0, hnp]
        rw [hstep]
        right
        refine ⟨hqb, by omega, fun j hj hqj => ?_⟩
        rcases Nat.lt_succ_iff_lt_or_eq.mp hj with hj2 | rfl
        · exact hmax j hj2 hqj
        · exact ⟨hp, fun _ => by omega⟩
  · have hstep : Plic.claimStep s c best i = best := by
      simp [Plic.claimStep, hq]
    rw [hstep]
    rcases h with ⟨hb0, hnone⟩ | ⟨hqb, hlt, hmax⟩
    · left
      refine ⟨hb0, fun j hj => ?_⟩
      rcases Nat.lt_succ_iff_lt_or_eq.mp hj with hj2 | rfl
      · exact hnone j hj2
      · exact hq
    · right
      refine ⟨hqb, by omega, fun j hj hqj => ?_⟩
      rcases Nat.lt_succ_iff_lt_or_eq.mp hj with hj2 | rfl
      · exact hmax j hj2 hqj
      · rw [hq] at hqj
        exact absurd hqj (by simp)

/-- The arbitration scan preserves the invariant across a whole range. -/
theorem claimScan_inv (s : PlicState) (c : Nat) (n : Nat) :
    ∀ i best, ClaimInv s c i best →
      ClaimInv s c (i + n) (Plic.claimScan s c i n best) := by
  induction n with
  | zero => intro i best h; simpa [Plic.claimScan] using h
  | succ n ih =>
      intro i best h
      have h2 := ih (i + 1) (Plic.claimStep s c best i) (claimStep_inv s c i best h)
      have he : i + (n + 1) = (i + 1) + n := by omega
      rw [he]
      simpa [Plic.claimScan] using h2

/-- The claim-register value satisfies the invariant for the full id
range 1..1023. -/
theorem claimReg_inv (s : PlicState) (c : Nat) :
    ClaimInv s c 1024 (Plic.claimReg s c) := by
  have h0 : ClaimInv s c 1 0 := by
    left
    refine ⟨rfl, fun j hj => ?_⟩
    have hj0 : j = 0 := by omega
    subst hj0
    simp [Plic.qualifiesb]
  have := claimScan_inv s c 1023 1 0 h0
  simpa [Plic.claimReg] using this

/-- **C2 counterexample.** On the all-zero state (nothing pending),
`claim` returns the id 0: it does not return an absent result, and the
value 0 is returned, contradicting the claim as stated. -/
theorem claim_zero_counterexample : Plic.claim plicEmpty 0 = some 0 := by
  decide

/-- **C2 (amended).** For every in-bounds context, `claim` returns the
raw id 0 (not an absent result) exactly when no source is pending,
enabled, and at or above threshold; otherwise it returns a nonzero,
highest-priority qualifying source id, ties broken by lowest id
(assuming the hardware claim register implements the spec's
arbitration, which is modelled here). -/
theorem claim_amended_spec (s : PlicState) (c : Nat) (hc : c < 15872) :
    (Plic.claim s c = some 0 ∧ ∀ j, Plic.qualifiesb s c j = false) ∨
    (∃ r, Plic.claim s c = some r ∧ r ≠ 0 ∧ Plic.qualifiesb s c r = true ∧
      ∀ j, Plic.qualifiesb s c j = true →
        s.priority j ≤ s.priority r ∧ (s.priority j = s.priority r → r ≤ j)) := by
  have hclaim : Plic.claim s c = some (Plic.claimReg s c % 65536) := by
    simp [Plic.claim, hc]
  have hout : ∀ j, 1024 ≤ j → Plic.qualifiesb s c j = false := by
    intro j hj
    rcases Bool.eq_false_or_eq_true (Plic.qualifiesb s c j) with h | h
    · have := qualifiesb_bounds s c j h
      omega
    · exact h
  rcases claimReg_inv s c with ⟨hb0, hnone⟩ | ⟨hqb, hlt, hmax⟩
  · left
    constructor
    · rw [hclaim, hb0]
    · intro j
      rcases Nat.lt_or_ge j 1024 with hj | hj
      · exact hnone j hj
      · exact hout j hj
  · right
    have hb := qualifiesb_bounds s c (Plic.claimReg s c) hqb
    refine ⟨Plic.claimReg s c, ?_, by omega, hqb, ?_⟩
    · rw [hclaim, Nat.mod_eq_of_lt (by omega)]
    · intro j hqj
      rcases Nat.lt_or_ge j 1024 with hj | hj
      · exact hmax j hj hqj
      · rw [hout j hj] at hqj
        exact absurd hqj (by simp)

/-- Witness for `claim_amended_spec` at the all-zero state, context 0. -/
theorem claim_amended_spec_witness :
    (0 : Nat) < 15872 ∧
    ((Plic.claim plicEmpty 0 = some 0 ∧ ∀ j, Plic.qualifiesb plicEmpty 0 j = false) ∨
      (∃ r, Plic.claim plicEmpty 0 = some r ∧ r ≠ 0 ∧
        Plic.qualifiesb plicEmpty 0 r = true ∧
        ∀ j, Plic.qualifiesb plicEmpty 0 j = true →
          plicEmpty.priority j ≤ plicEmpty.priority r ∧
            (plicEmpty.priority j = plicEmpty.priority r → r ≤ j))) :=
  ⟨by decide, claim_amended_spec plicEmpty 0 (by decide)⟩

/-- Shifting left by `k` and OR-ing in a value below `2^k` concatenates
the two bit fields: the OR is an addition. -/
theorem lor_shiftLeft_add (a b k : Nat) (hb : b < 2 ^ k) : a <<< k ||| b = a * 2 ^ k + b := by
  apply Nat.eq_of_testBit_eq
  intro j
  rw [show a * 2 ^ k + b = 2 ^ k * a + b by ring]
  rw [Nat.testBit_or, Nat.testBit_shiftLeft, Nat.testBit_mul_pow_two_add a hb j]
  rcases Nat.lt_or_ge j k with hj | hj
  · have hk : ¬ k ≤ j := by omega
    simp [hj, hk]
  · have hbf : b.testBit j = false :=
      Nat.testBit_lt_two_pow (Nat.lt_of_lt_of_le hb (Nat.pow_le_pow_right (by omega) hj))
    have hk : ¬ j < k := by omega
    simp [hj, hk, hbf, ge_iff_le]

/-- The packed MSI target word is the sum of its disjoint fields. -/
theorem msi_pack_eq_add (hart guest eiid : Nat) (hg : guest < 32) (he : eiid < 1024) :
    hart <<< 18 ||| guest <<< 12 ||| eiid = hart * 262144 + guest * 4096 + eiid := by
  rw [Nat.lor_assoc]
  have h1 : guest <<< 12 ||| eiid = guest * 4096 + eiid := by
    have := lor_shiftLeft_add guest eiid 12 (by norm_num; omega)
    simpa using this
  rw [h1]
  have h2 := lor_shiftLeft_add hart (guest * 4096 + eiid) 18 (by norm_num; omega)
  rw [h2]
  norm_num
  ring

/-- **C5.** `set_target_msi` fails fast whenever `hart ≥ 16384`,
`guest ≥ 32` or `eiid ≥ 1024`; for in-range arguments it succeeds and
writes `hart << 18 | guest << 12 | eiid` to `target[id]`, from which
the three fields decode back unchanged. -/
theorem set_target_msi_spec (s : AplicState) (int hart guest eiid : Nat) :
    ((16384 ≤ hart ∨ 32 ≤ guest ∨ 1024 ≤ eiid) →
      Aplic.set_target_msi s int hart guest eiid = none) ∧
    (0 < int → int < 1024 → hart < 16384 → guest < 32 → eiid < 1024 →
      ((Aplic.set_target_msi s int hart guest eiid).map (fun t => t.target (int - 1)) =
          some (hart * 262144 + guest * 4096 + eiid) ∧
        (hart * 262144 + guest * 4096 + eiid) >>> 18 = hart ∧
        ((hart * 262144 + guest * 4096 + eiid) >>> 12) % 64 = guest ∧
        (hart * 262144 + guest * 4096 + eiid) % 4096 = eiid)) := by
  constructor
  · intro hbad
    unfold Aplic.set_target_msi
    split_ifs <;> first | rfl | omega
  · intro h1 h2 hh hg he
    have hpos : 0 < int ∧ int < 1024 := ⟨h1, h2⟩
    refine ⟨?_, ?_, ?_, ?_⟩
    · simp only [Aplic.set_target_msi, if_pos hpos, if_pos hh, if_pos hg, if_pos he,
        Option.map_some', eq_self_iff_true, ite_true]
      rw [msi_pack_eq_add hart guest eiid hg he]
    · rw [Nat.shiftRight_eq_div_pow]
      norm_num
      omega
    · rw [Nat.shiftRight_eq_div_pow]
      norm_num
      omega
    · omega

/-- Witness for `set_target_msi_spec` at the boundary values
`hart = 16383`, `guest = 31`, `eiid = 1023` on the all-zero state. -/
theorem set_target_msi_spec_witness :
    (((16384 : Nat) ≤ 16383 ∨ (32 : Nat) ≤ 31 ∨ (1024 : Nat) ≤ 1023) →
      Aplic.set_target_msi aplic0 1 16383 31 1023 = none) ∧
    ((0 : Nat) < 1 → (1 : Nat) < 1024 → (16383 : Nat) < 16384 → (31 : Nat) < 32 →
      (1023 : Nat) < 1024 →
      ((Aplic.set_target_msi aplic0 1 16383 31 1023).map (fun t => t.target 0) =
          some (16383 * 262144 + 31 * 4096 + 1023) ∧
        ((16383 : Nat) * 262144 + 31 * 4096 + 1023) >>> 18 = 16383 ∧
        (((16383 : Nat) * 262144 + 31 * 4096 + 1023) >>> 12) % 64 = 31 ∧
        ((16383 : Nat) * 262144 + 31 * 4096 + 1023) % 4096 = 1023)) :=
  set_target_msi_spec aplic0 1 16383 31 1023

/-- **C6.** Delegating a source and then writing a direct mode is a
whole-word overwrite: afterwards `sourcecfg[id]` holds exactly the
`EdgeRising` encoding — the delegation bit (bit 10) and the child-index
bits carry no residue. -/
theorem delegate_then_set_sourcecfg (s : AplicState) (int child : Nat)
    (h1 : 0 < int) (h2 : int < 1024) (h3 : child < 1024) :
    ((Aplic.sourcecfg_delegate s int child).bind
        (fun t => Aplic.set_sourcecfg t int SourceModes.EdgeRising)).map
      (fun t => t.sourcecfg (int - 1)) = some (SourceModes.toBits SourceModes.EdgeRising) ∧
    SourceModes.toBits SourceModes.EdgeRising &&& 1 <<< 10 = 0 ∧
    SourceModes.toBits SourceModes.EdgeRising &&& 1023 =
      SourceModes.toBits SourceModes.EdgeRising := by
  refine ⟨?_, by decide, by decide⟩
  simp only [Aplic.sourcecfg_delegate, Aplic.set_sourcecfg, if_pos (And.intro h1 h2),
    if_pos h3, Option.some_bind, Option.map_some', eq_self_iff_true, ite_true]

/-- Witness for `delegate_then_set_sourcecfg` at `id = 7`, `child = 3`
on the all-zero state. -/
theorem delegate_then_set_sourcecfg_witness :
    ((0 : Nat) < 7 ∧ (7 : Nat) < 1024 ∧ (3 : Nat) < 1024) ∧
    (((Aplic.sourcecfg_delegate aplic0 7 3).bind
          (fun t => Aplic.set_sourcecfg t 7 SourceModes.EdgeRising)).map
        (fun t => t.sourcecfg 6) = some (SourceModes.toBits SourceModes.EdgeRising) ∧
      SourceModes.toBits SourceModes.EdgeRising &&& 1 <<< 10 = 0 ∧
      SourceModes.toBits SourceModes.EdgeRising &&& 1023 =
        SourceModes.toBits SourceModes.EdgeRising) :=
  ⟨by decide, delegate_then_set_sourcecfg aplic0 7 3 (by decide) (by decide) (by decide)⟩

/-- **C7 counterexample.** `mask(5)` on the all-zero advanced-controller
state leaves `setienum` untouched (0) and writes 5 to `clrienum`, while
`unmask(5)` writes 5 to `setienum`: the claimed pairing
(mask ↦ setienum, unmask ↦ clrienum) is reversed in the code. -/
theorem mask_writes_clrienum_counterexample :
    (Aplic.mask aplic0 5).map (fun t => t.setienum) = some 0 ∧
    (Aplic.mask aplic0 5).map (fun t => t.setienum) ≠ some 5 ∧
    (Aplic.mask aplic0 5).map (fun t => t.clrienum) = some 5 ∧
    (Aplic.unmask aplic0 5).map (fun t => t.setienum) = some 5 ∧
    (Aplic.unmask aplic0 5).map (fun t => t.clrienum) = some 0 := by
  refine ⟨by decide, by decide, by decide, by decide, by decide⟩

/-- **C7 (amended).** For every source id in `1..1023`, `mask(id)` is a
single write of `id` to the `clrienum` register and `unmask(id)` a
single write of `id` to the `setienum` register, with no other register
modified (the resulting state differs only in that one field). -/
theorem mask_unmask_register_mapping (s : AplicState) (int : Nat)
    (h1 : 0 < int) (h2 : int < 1024) :
    Aplic.mask s int = some { s with clrienum := int } ∧
    Aplic.unmask s int = some { s with setienum := int } := by
  constructor <;> simp [Aplic.mask, Aplic.unmask, And.intro h1 h2]

/-- Witness for `mask_unmask_register_mapping` at `id = 1` on the
all-zero state. -/
theorem mask_unmask_register_mapping_witness :
    ((0 : Nat) < 1 ∧ (1 : Nat) < 1024) ∧
    (Aplic.mask aplic0 1 = some { aplic0 with clrienum := 1 } ∧
      Aplic.unmask aplic0 1 = some { aplic0 with setienum := 1 }) :=
  ⟨by decide, mask_unmask_register_mapping aplic0 1 (by decide) (by decide)⟩

/-- **C9.** Register-layout regression: the basic controller's priority
array, pending bitmap, enable bitmaps (stride 0x80) and context
threshold/claim pairs (stride 0x1000) sit at the documented offsets
with total size 0x4000000, and every named advanced-controller field
sits at its documented offset with total size 0x4000. -/
theorem register_layout_offsets :
    PlicLayout.priority_offset = 0 ∧
    PlicLayout.pending_offset = 0x1000 ∧
    PlicLayout.enables_offset = 0x2000 ∧
    PlicLayout.enables_stride = 0x80 ∧
    PlicLayout.contexts_offset = 0x200000 ∧
    PlicLayout.context_stride = 0x1000 ∧
    PlicLayout.total_size = 0x4000000 ∧
    AplicLayout.domaincfg_offset = 0x0000 ∧
    AplicLayout.sourcecfg_offset = 0x0004 ∧
    AplicLayout.mmsiaddrcfg_offset = 0x1BC0 ∧
    AplicLayout.mmsiaddrcfgh_offset = 0x1BC4 ∧
    AplicLayout.smsiaddrcfg_offset = 0x1BC8 ∧
    AplicLayout.smsiaddrcfgh_offset = 0x1BCC ∧
    AplicLayout.setip_offset = 0x1C00 ∧
    AplicLayout.setipnum_offset = 0x1CDC ∧
    AplicLayout.in_clrip_offset = 0x1D00 ∧
    AplicLayout.clripnum_offset = 0x1DDC ∧
    AplicLayout.setie_offset = 0x1E00 ∧
    AplicLayout.setienum_offset = 0x1EDC ∧
    AplicLayout.clrie_offset = 0x1F00 ∧
    AplicLayout.clrienum_offset = 0x1FDC ∧
    AplicLayout.setipnum_le_offset = 0x2000 ∧
    AplicLayout.setipnum_be_offset = 0x2004 ∧
    AplicLayout.genmsi_offset = 0x3000 ∧
    AplicLayout.target_offset = 0x3004 ∧
    AplicLayout.total_size = 0x4000 := by
  decide
